import Mathlib

/-!
Shallow embedding of the tag versioning, matching and validation pipeline of
the pongogo-eval-tagging repository (src/scripts/validate_tags.py,
src/scripts/add_tags.py, src/scripts/import_tagged.py).

Input lines of a batch are modelled after json.loads has run: a line either
fails to decode (carrying the decoder's message) or yields an object whose
`event_id` member is an arbitrary JSON scalar and whose `tags` member, when
present, is an object mapping field names to JSON scalars.  Scalar JSON
values (null, booleans, integers, strings) suffice for every field the
scripts inspect.  Python runtime behaviour that the scripts rely on is
embedded explicitly: `==` equating booleans with 0/1, `str()` rendering,
`type(x).__name__`, truthiness, `str.replace` and `int(str)`.  Code paths
that raise an uncaught exception are modelled with `Except`: `.error`
aborts the whole run exactly as an uncaught Python exception does.
-/

namespace Tagging

/-- A JSON scalar value as `json.loads` produces it (objects and arrays never
reach the fields the scripts inspect on the modelled paths). -/
inductive JVal where
  | null : JVal
  | bool (b : Bool) : JVal
  | int (n : Int) : JVal
  | str (s : String) : JVal
deriving Repr, DecidableEq

namespace JVal

/-- Python `bool` as a subclass of `int`: the numeric value of True/False. -/
def boolToInt (b : Bool) : Int := if b then 1 else 0

/-- Python `==` on the modelled scalars: booleans compare equal to their
numeric value, values of unrelated types compare unequal. -/
def pyEq : JVal → JVal → Bool
  | .null, .null => true
  | .bool a, .bool b => a = b
  | .bool a, .int n => boolToInt a = n
  | .int n, .bool b => n = boolToInt b
  | .int a, .int b => a = b
  | .str a, .str b => a = b
  | _, _ => false

/-- Python `str()` of a scalar. -/
def pyStr : JVal → String
  | .null => "None"
  | .bool b => if b then "True" else "False"
  | .int n => toString n
  | .str s => s

/-- Python `type(x).__name__` of a scalar. -/
def pyTypeName : JVal → String
  | .null => "NoneType"
  | .bool _ => "bool"
  | .int _ => "int"
  | .str _ => "str"

/-- Python truthiness of a scalar. -/
def pyTruthy : JVal → Bool
  | .null => false
  | .bool b => b
  | .int n => n ≠ 0
  | .str s => s ≠ ""

/-- Python `isinstance(x, bool)`. -/
def isBool : JVal → Bool
  | .bool _ => true
  | _ => false

/-- Python `isinstance(x, int)`: True for bool as well, bool subclasses int. -/
def isInt : JVal → Bool
  | .bool _ => true
  | .int _ => true
  | _ => false

/-- The numeric value of an int-like scalar (0 otherwise; used only where
`isInt` has been checked, mirroring the Python comparisons on ints). -/
def toInt : JVal → Int
  | .bool b => boolToInt b
  | .int n => n
  | _ => 0

/-- The canonical key under Python `==`: null alone, numbers by value (bool
collapsing onto 0/1), strings apart. -/
def pyKey : JVal → Option (Int ⊕ String)
  | .null => none
  | .bool b => some (.inl (boolToInt b))
  | .int n => some (.inl n)
  | .str s => some (.inr s)

end JVal

/-- Python `x in xs` for a list, via `==`. -/
def pyMem (x : JVal) (xs : List JVal) : Bool :=
  xs.any (fun y => JVal.pyEq x y)

/-- A JSON object's members, in insertion order (json.loads keeps the last
binding of a repeated key; the model assumes distinct keys, as every batch
the scripts describe has). -/
abbrev Obj := List (String × JVal)

/-- Python `d[k]` / `d.get(k)` on an object: the first binding of `k`. -/
def objGet (m : Obj) (k : String) : Option JVal :=
  match m with
  | [] => none
  | (k', v) :: rest => if k' = k then some v else objGet rest k

/-- Python `d.get(k)` with `None` default. -/
def objGetD (m : Obj) (k : String) : JVal :=
  (objGet m k).getD .null

/-- Python `k in d`. -/
def objHas (m : Obj) (k : String) : Bool :=
  (objGet m k).isSome

/-! ### Python `str.replace(pat, "")` and `int(str)` -/

/-- `removeAllGo p ps fuel l`: removal of every left-to-right
non-overlapping occurrence of the pattern `p :: ps` from `l`, as
`str.replace(pat, '')` performs it.  `fuel` bounds the recursion (the
caller passes `l.length`, which suffices since every step consumes at least
one character); it exists only to keep the recursion structural. -/
def removeAllGo (p : Char) (ps : List Char) : Nat → List Char → List Char
  | _, [] => []
  | 0, l => l
  | fuel + 1, c :: rest =>
    if c == p && ps.isPrefixOf rest then
      removeAllGo p ps fuel (rest.drop ps.length)
    else
      c :: removeAllGo p ps fuel rest

/-- Python `s.replace(pat, "")` (the only replacement the scripts use). -/
def pyReplace (s pat : String) : String :=
  match pat.data with
  | [] => s
  | p :: ps => ⟨removeAllGo p ps s.data.length s.data⟩

/-- Python `s.startswith(pre)`, over the character lists. -/
def pyStartsWith (s pre : String) : Bool :=
  pre.data.isPrefixOf s.data

/-- Python `<` on strings: lexicographic by code point. -/
def charListLt : List Char → List Char → Bool
  | [], [] => false
  | [], _ :: _ => true
  | _ :: _, [] => false
  | a :: as, b :: bs =>
    if a.toNat < b.toNat then true
    else if a.toNat = b.toNat then charListLt as bs
    else false

/-- Python's whitespace set for `int(str)` stripping (`str.strip()`). -/
def pyIsSpace (c : Char) : Bool :=
  c = ' ' ∨ c = '\t' ∨ c = '\n' ∨ c = '\x0d' ∨ c = '\x0b' ∨ c = '\x0c'

/-- One decimal digit's value. -/
def digVal (c : Char) : Option Nat :=
  if c.isDigit then some (c.toNat - 48) else none

/-- The digit tail of a Python integer literal: digits with single
underscores allowed only between digits. Accumulates into `acc`. -/
def digitsCore (acc : Nat) : List Char → Option Nat
  | [] => some acc
  | c :: rest =>
    if c = '_' then
      match rest with
      | [] => none
      | d :: rest' =>
        match digVal d with
        | some v => digitsCore (acc * 10 + v) rest'
        | none => none
    else
      match digVal c with
      | some v => digitsCore (acc * 10 + v) rest
      | none => none

/-- A nonempty run of digits (with interior underscores), as `int()` demands
after the optional sign. -/
def digitsStart : List Char → Option Nat
  | [] => none
  | c :: rest =>
    match digVal c with
    | some v => digitsCore v rest
    | none => none

/-- Python `int(s)` on a decimal string: optional surrounding whitespace, an
optional sign, then digits; `none` models the `ValueError`. -/
def pyIntParse (s : String) : Option Int :=
  let l := ((s.data.dropWhile pyIsSpace).reverse.dropWhile pyIsSpace).reverse
  match l with
  | '+' :: rest => (digitsStart rest).map Int.ofNat
  | '-' :: rest => (digitsStart rest).map (fun n => -(n : Int))
  | rest => (digitsStart rest).map Int.ofNat

/-! ## Input lines

A line of a batch file, after `json.loads` has been attempted on it. -/

/-- One line of a JSONL batch: either a JSON decode failure (carrying the
decoder's message) or a decoded object with its optional `event_id` and
`tags` members (`tags`, when present, an object). -/
inductive Line where
  | badJson (err : String) : Line
  | obj (eventId : Option JVal) (tags : Option Obj) : Line
deriving Repr, DecidableEq

/-! ## validate_tags.py -/

/-- `REQUIRED_FIELDS` of validate_tags.py. -/
def REQUIRED_FIELDS : List String :=
  ["is_new_request", "is_followup", "is_correction", "request_type",
   "expected_outcome", "session_id", "request_sequence"]

/-- The three boolean-typed classification fields checked by validate_tags.py. -/
def BOOL_FIELDS : List String := ["is_new_request", "is_followup", "is_correction"]

/-- `VALID_REQUEST_TYPES` of validate_tags.py. -/
def VALID_REQUEST_TYPES : List String := ["procedural", "query", "action", "meta", "unclear"]

/-- `VALID_CONFIDENCE` of validate_tags.py. -/
def VALID_CONFIDENCE : List String := ["high", "medium", "low"]

/-- Python `v in xs` for a list of strings. -/
def pyMemStr (v : JVal) (xs : List String) : Bool :=
  xs.any (fun s => JVal.pyEq v (.str s))

/-- Python's repr of VALID_REQUEST_TYPES as the f-string renders it. -/
def requestTypesRendered : String := "['procedural', 'query', 'action', 'meta', 'unclear']"

/-- Python's repr of VALID_CONFIDENCE as the f-string renders it. -/
def confidenceRendered : String := "['high', 'medium', 'low']"

def invalidJsonMsg (n : Nat) (e : String) : String :=
  s!"Line {n}: Invalid JSON - {e}"

def missingEventIdMsg (n : Nat) : String :=
  s!"Line {n}: Missing 'event_id'"

def duplicateMsg (n : Nat) (eid : JVal) : String :=
  s!"Line {n}: Duplicate event_id '{eid.pyStr}'"

def missingTagsMsg (n : Nat) (eid : JVal) : String :=
  s!"Line {n} ({eid.pyStr}): Missing 'tags'"

def missingFieldMsg (n : Nat) (eid : JVal) (f : String) : String :=
  s!"Line {n} ({eid.pyStr}): Missing required field '{f}'"

def boolTypeMsg (n : Nat) (eid : JVal) (f tn : String) : String :=
  s!"Line {n} ({eid.pyStr}): '{f}' must be boolean, got {tn}"

def invalidRequestTypeMsg (n : Nat) (eid v : JVal) : String :=
  s!"Line {n} ({eid.pyStr}): Invalid request_type '{v.pyStr}'. Must be one of: {requestTypesRendered}"

def seqNotPositiveMsg (n : Nat) (eid : JVal) : String :=
  s!"Line {n} ({eid.pyStr}): request_sequence must be positive integer"

def sessionFormatMsg (n : Nat) (eid : JVal) (sid : String) : String :=
  s!"Line {n} ({eid.pyStr}): session_id '{sid}' doesn't follow 'session_NNN' format"

def invalidConfidenceMsg (n : Nat) (eid v : JVal) : String :=
  s!"Line {n} ({eid.pyStr}): Invalid confidence '{v.pyStr}'. Should be one of: {confidenceRendered}"

def nonSeqMsg (sid expected actual eid : JVal) : String :=
  s!"Session '{sid.pyStr}': Non-sequential request_sequence. Expected {expected.pyStr}, got {actual.pyStr} for {eid.pyStr}"

/-- The uncaught AttributeError raised by `x.startswith` on a non-string. -/
def attrNoStartswith (tn : String) : String :=
  s!"AttributeError: '{tn}' object has no attribute 'startswith'"

def pyLtTypeError (ta tb : String) : String :=
  s!"TypeError: '<' not supported between instances of '{ta}' and '{tb}'"

def pyAddTypeError (t : String) : String :=
  s!"TypeError: unsupported operand type(s) for +: '{t}' and 'int'"

/-- The mutable `results` dict of validate_tags.py; `sessions` is the
defaultdict in key-insertion order. -/
structure VRes where
  total : Nat
  valid : Nat
  errors : List String
  warnings : List String
  sessions : List (JVal × List (JVal × JVal))
deriving Repr, DecidableEq

def initRes : VRes := { total := 0, valid := 0, errors := [], warnings := [], sessions := [] }

/-- `results['sessions'][k].append(v)` on a defaultdict(list): appends under
the first key comparing `==` to `k`, creating the entry at the end otherwise. -/
def sessAppend (ss : List (JVal × List (JVal × JVal))) (k : JVal) (v : JVal × JVal) :
    List (JVal × List (JVal × JVal)) :=
  match ss with
  | [] => [(k, [v])]
  | (k', vs) :: rest =>
    if JVal.pyEq k' k then (k', vs ++ [v]) :: rest
    else (k', vs) :: sessAppend rest k v

/-- The per-line body of the `for line_num, line in enumerate(f, 1)` loop of
validate_tags.py: `.error` models an uncaught exception aborting the run
(the only raise site is `tags['session_id'].startswith` on a non-string). -/
def processLine (n : Nat) (st : VRes × List JVal) (l : Line) :
    Except String (VRes × List JVal) :=
  let res := { st.1 with total := st.1.total + 1 }
  let seen := st.2
  match l with
  | .badJson e => .ok ({ res with errors := res.errors ++ [invalidJsonMsg n e] }, seen)
  | .obj none _ => .ok ({ res with errors := res.errors ++ [missingEventIdMsg n] }, seen)
  | .obj (some eid) tags? =>
    let res := if pyMem eid seen then
        { res with errors := res.errors ++ [duplicateMsg n eid] } else res
    let seen := eid :: seen
    match tags? with
    | none => .ok ({ res with errors := res.errors ++ [missingTagsMsg n eid] }, seen)
    | some tags =>
      let missing := REQUIRED_FIELDS.filter (fun f => ! objHas tags f)
      let res := { res with errors := res.errors ++ missing.map (missingFieldMsg n eid) }
      if missing.isEmpty then
        let badBools := BOOL_FIELDS.filter (fun f => ! (objGetD tags f).isBool)
        let boolErrs := badBools.map (fun f => boolTypeMsg n eid f (objGetD tags f).pyTypeName)
        let res := { res with errors := res.errors ++ boolErrs }
        let rt := objGetD tags "request_type"
        let rtBad := ! pyMemStr rt VALID_REQUEST_TYPES
        let res := if rtBad then
            { res with errors := res.errors ++ [invalidRequestTypeMsg n eid rt] } else res
        let rs := objGetD tags "request_sequence"
        let rsBad := ! rs.isInt || decide (rs.toInt < 1)
        let res := if rsBad then
            { res with errors := res.errors ++ [seqNotPositiveMsg n eid] } else res
        let lineValid := badBools.isEmpty && ! rtBad && ! rsBad
        match objGetD tags "session_id" with
        | .str sid =>
          let res := if ! pyStartsWith sid "session_" then
              { res with warnings := res.warnings ++ [sessionFormatMsg n eid sid] } else res
          let res := if objHas tags "confidence" &&
              ! pyMemStr (objGetD tags "confidence") VALID_CONFIDENCE then
              { res with warnings := res.warnings ++
                [invalidConfidenceMsg n eid (objGetD tags "confidence")] } else res
          let res := { res with sessions := sessAppend res.sessions (.str sid) (rs, eid) }
          let res := if lineValid then { res with valid := res.valid + 1 } else res
          .ok (res, seen)
        | v => .error (attrNoStartswith v.pyTypeName)
      else
        .ok (res, seen)

/-- The whole per-line loop, threading `results` and `seen_event_ids`. -/
def runLines : Nat → (VRes × List JVal) → List Line → Except String (VRes × List JVal)
  | _, st, [] => .ok st
  | n, st, l :: rest =>
    match processLine n st l with
    | .error e => .error e
    | .ok st' => runLines (n + 1) st' rest

/-- Python `<` on the sort keys (`x[0]` of a sessions entry): numbers compare
numerically (bool as 0/1), strings lexicographically, anything else raises. -/
def pyLtKey (a b : JVal) : Except String Bool :=
  if a.isInt ∧ b.isInt then .ok (a.toInt < b.toInt)
  else match a, b with
    | .str x, .str y => .ok (charListLt x.data y.data)
    | x, y => .error (pyLtTypeError x.pyTypeName y.pyTypeName)

/-- Stable insertion into an ascending list, placing `x` before the first
element not below it (so before entries with an equal key, preserving the
original order of later elements behind it). -/
def insertEvent (x : JVal × JVal) : List (JVal × JVal) → Except String (List (JVal × JVal))
  | [] => .ok [x]
  | y :: rest =>
    match pyLtKey y.1 x.1 with
    | .error e => .error e
    | .ok true =>
      match insertEvent x rest with
      | .error e => .error e
      | .ok r => .ok (y :: r)
    | .ok false => .ok (x :: y :: rest)

/-- `sorted(events, key=lambda x: x[0])`: the stable ascending sort; the
TypeError of comparing unorderable keys is modelled by `.error` (the exact
set of comparisons attempted differs from CPython's sort, the result on
orderable keys agrees). -/
def sortEvents : List (JVal × JVal) → Except String (List (JVal × JVal))
  | [] => .ok []
  | x :: rest =>
    match sortEvents rest with
    | .error e => .error e
    | .ok s => insertEvent x s

/-- Python `prev_seq + 1`: raises on a non-numeric prev_seq. -/
def pyAdd1 : JVal → Except String JVal
  | .int n => .ok (.int (n + 1))
  | .bool b => .ok (.int (JVal.boolToInt b + 1))
  | v => .error (pyAddTypeError v.pyTypeName)

/-- The inner walk of the session-monotonicity loop: flags every entry whose
sequence is not `prev + 1` and then advances `prev` to it. -/
def walkSession (sid : JVal) : JVal → List (JVal × JVal) → Except String (List String)
  | _, [] => .ok []
  | prev, (seq, eid) :: rest =>
    match pyAdd1 prev with
    | .error e => .error e
    | .ok exp =>
      match walkSession sid seq rest with
      | .error e => .error e
      | .ok ws => .ok ((if ¬ JVal.pyEq seq exp then [nonSeqMsg sid exp seq eid] else []) ++ ws)

/-- The `for session_id, events in results['sessions'].items()` loop. -/
def sessionPass : List (JVal × List (JVal × JVal)) → Except String (List String)
  | [] => .ok []
  | (sid, evs) :: rest =>
    match sortEvents evs with
    | .error e => .error e
    | .ok sorted =>
      match walkSession sid (.int 0) sorted with
      | .error e => .error e
      | .ok ws =>
        match sessionPass rest with
        | .error e => .error e
        | .ok rest' => .ok (ws ++ rest')

/-- `validate_tags` of validate_tags.py over a decoded batch: the per-line
loop followed by the session-sequence pass. -/
def validate_tags (lines : List Line) : Except String VRes :=
  match runLines 1 (initRes, []) lines with
  | .error e => .error e
  | .ok (res, _) =>
    match sessionPass res.sessions with
    | .error e => .error e
    | .ok ws => .ok { res with warnings := res.warnings ++ ws }

/-! ## add_tags.py -/

/-- One row of the collaboration_tags table, with the columns in the INSERT
of add_tags.py; a missing input field is stored as NULL (`tags.get`). -/
structure CollabTag where
  event_id : JVal
  is_new_request : JVal
  tagged_session_id : JVal
  request_sequence : JVal
  is_followup : JVal
  is_correction : JVal
  iteration_type : JVal
  request_type : JVal
  expected_outcome : JVal
  expected_first_pass_success : JVal
  outcome_observed : JVal
  outcome_notes : JVal
  anti_pattern_detected : JVal
  anti_pattern_type : JVal
  preventive_instruction : JVal
  preventive_instruction_was_routed : JVal
  context_sufficient : JVal
  missing_context : JVal
  agent_response : JVal
  agent_response_source : JVal
  confidence : JVal
  notes : JVal
  requires_agent_response : JVal
  tagger_id : String
  tag_version : Int
deriving Repr, DecidableEq

/-- The evaluation_results.db state add_tags.py touches: whether the
collaboration_tags table exists, the event_ids of evaluation_dataset, and
the collaboration_tags rows in insertion order. -/
structure EvalDB where
  hasCollabTable : Bool
  dataset : List JVal
  tags : List CollabTag
deriving Repr, DecidableEq

/-- The `stats` dict of add_tags_from_jsonl. -/
structure AStats where
  total : Nat
  imported : Nat
  event_not_found : Nat
  errors : List String
deriving Repr, DecidableEq

def schemaMissingMsg : String :=
  "collaboration_tags table not found. Run: python scripts/apply_schema.py --db PATH"

def jsonParseMsg (n : Nat) (e : String) : String :=
  s!"Line {n}: JSON parse error - {e}"

def insertErrMsg (n : Nat) (e : String) : String :=
  s!"Line {n}: Insert error - {e}"

def uniqueConstraintMsg : String :=
  "UNIQUE constraint failed: collaboration_tags.event_id, collaboration_tags.tagger_id, collaboration_tags.tag_version"

/-- The WHERE clause `event_id = ? AND tagger_id = ?` of the version query. -/
def matchesPair (e : JVal) (t : String) (r : CollabTag) : Bool :=
  JVal.pyEq r.event_id e ∧ r.tagger_id = t

/-- The tag_version values of the rows the version query ranges over. -/
def matchingVersions (rows : List CollabTag) (e : JVal) (t : String) : List Int :=
  (rows.filter (matchesPair e t)).map (fun r => r.tag_version)

/-- SQL `MAX` over a column: NULL (`none`) on no rows. -/
def listMax? : List Int → Option Int
  | [] => none
  | v :: rest => some (match listMax? rest with | none => v | some m => max v m)

/-- SQL `COALESCE(MAX(...), 0)`. -/
def coalesceMax (l : List Int) : Int := (listMax? l).getD 0

/-- `SELECT COALESCE(MAX(tag_version), 0) + 1 FROM collaboration_tags WHERE
event_id = ? AND tagger_id = ?` of add_tags.py. -/
def nextVersion (rows : List CollabTag) (e : JVal) (t : String) : Int :=
  coalesceMax (matchingVersions rows e t) + 1

/-- The row the INSERT of add_tags.py builds from one input line. -/
def mkTag (eid : JVal) (tags : Obj) (tagger : String) (version : Int) : CollabTag :=
  { event_id := eid
    is_new_request := objGetD tags "is_new_request"
    tagged_session_id := objGetD tags "session_id"
    request_sequence := objGetD tags "request_sequence"
    is_followup := objGetD tags "is_followup"
    is_correction := objGetD tags "is_correction"
    iteration_type := objGetD tags "iteration_type"
    request_type := objGetD tags "request_type"
    expected_outcome := objGetD tags "expected_outcome"
    expected_first_pass_success := objGetD tags "expected_first_pass_success"
    outcome_observed := objGetD tags "outcome_observed"
    outcome_notes := objGetD tags "outcome_notes"
    anti_pattern_detected := objGetD tags "anti_pattern_detected"
    anti_pattern_type := objGetD tags "anti_pattern_type"
    preventive_instruction := objGetD tags "preventive_instruction"
    preventive_instruction_was_routed := objGetD tags "preventive_instruction_was_routed"
    context_sufficient := objGetD tags "context_sufficient"
    missing_context := objGetD tags "missing_context"
    agent_response := objGetD tags "agent_response"
    agent_response_source := objGetD tags "agent_response_source"
    confidence := objGetD tags "confidence"
    notes := objGetD tags "notes"
    requires_agent_response := objGetD tags "requires_agent_response"
    tagger_id := tagger
    tag_version := version }

/-- Modelled from the spec: the persisted tag store contract (the schema DDL
file is not under src/): "a table/collection keyed by (event_id, tagger_id,
tag_version), unique on that composite; all Tag fields from §3 nullable
except the identity triple."  An INSERT therefore fails exactly when a row
with the same composite key already exists. -/
def insertConflict (rows : List CollabTag) (r : CollabTag) : Bool :=
  rows.any (fun q => JVal.pyEq q.event_id r.event_id ∧ q.tagger_id = r.tagger_id ∧
    q.tag_version = r.tag_version)

/-- The per-line body of add_tags_from_jsonl's loop. -/
def addStep (tagger : String) (dataset : List JVal) (n : Nat)
    (st : AStats × List CollabTag) (l : Line) : AStats × List CollabTag :=
  let stats := { st.1 with total := st.1.total + 1 }
  let rows := st.2
  match l with
  | .badJson e => ({ stats with errors := stats.errors ++ [jsonParseMsg n e] }, rows)
  | .obj eid? tags? =>
    let eid := eid?.getD (.str "")
    let tags := tags?.getD []
    if ¬ dataset.any (fun d => JVal.pyEq d eid) then
      ({ stats with event_not_found := stats.event_not_found + 1 }, rows)
    else
      let r := mkTag eid tags tagger (nextVersion rows eid tagger)
      if insertConflict rows r then
        ({ stats with errors := stats.errors ++ [insertErrMsg n uniqueConstraintMsg] }, rows)
      else
        ({ stats with imported := stats.imported + 1 }, rows ++ [r])

/-- add_tags_from_jsonl's loop over the batch. -/
def addLoop (tagger : String) (dataset : List JVal) :
    Nat → (AStats × List CollabTag) → List Line → AStats × List CollabTag
  | _, st, [] => st
  | n, st, l :: rest => addLoop tagger dataset (n + 1) (addStep tagger dataset n st l) rest

/-- `add_tags_from_jsonl` of add_tags.py over a decoded batch. -/
def add_tags_from_jsonl (lines : List Line) (db : EvalDB) (tagger : String) :
    AStats × EvalDB :=
  if ¬ db.hasCollabTable then
    ({ total := 0, imported := 0, event_not_found := 0, errors := [schemaMissingMsg] }, db)
  else
    let (stats, rows) :=
      addLoop tagger db.dataset 1
        ({ total := 0, imported := 0, event_not_found := 0, errors := [] }, db.tags) lines
    (stats, { db with tags := rows })

/-! ## import_tagged.py -/

/-- One row of routing_events with the tag columns ensure_tag_columns adds
(all initially NULL; the three flag columns are written as INTEGER 0/1). -/
structure RoutingEvent where
  id : Int
  tag_is_new_request : JVal := .null
  tag_is_followup : JVal := .null
  tag_is_correction : JVal := .null
  tag_request_type : JVal := .null
  tag_expected_outcome : JVal := .null
  tag_session_id : JVal := .null
  tag_request_sequence : JVal := .null
  tag_confidence : JVal := .null
  tag_notes : JVal := .null
  tag_source : JVal := .null
  tag_timestamp : JVal := .null
deriving Repr, DecidableEq

/-- The `stats` dict of import_tags. -/
structure IStats where
  total : Nat
  matched : Nat
  not_found : Nat
  errors : List String
deriving Repr, DecidableEq

def invalidIdMsg (s : String) : String :=
  s!"Invalid event_id format: {s}"

/-- The uncaught AttributeError raised by `x.replace` on a non-string. -/
def attrNoReplace (tn : String) : String :=
  s!"AttributeError: '{tn}' object has no attribute 'replace'"

/-- Python repr of a scalar. -/
def pyRepr : JVal → String
  | .str s => "'" ++ s ++ "'"
  | v => v.pyStr

/-- Python repr of a decoded object (modelled objects hold only the members
the scripts read). -/
def objRepr (o : Obj) : String :=
  "\x7b" ++ String.intercalate ", "
    (o.map (fun p => pyRepr (.str p.1) ++ ": " ++ pyRepr p.2)) ++ "\x7d"

/-- Python repr of a decoded batch line. -/
def eventRepr (eid : Option JVal) (tags : Option Obj) : String :=
  let fields :=
    (match eid with | some v => ["'event_id': " ++ pyRepr v] | none => []) ++
    (match tags with | some o => ["'tags': " ++ objRepr o] | none => [])
  "\x7b" ++ String.intercalate ", " fields ++ "\x7d"

/-- The load loop of import_tags: collects decoded events, recording a
line-numbered error for each JSON failure (which joins no event). -/
def loadTagged : Nat → List Line → List (Option JVal × Option Obj) × List String
  | _, [] => ([], [])
  | n, l :: rest =>
    let (evs, errs) := loadTagged (n + 1) rest
    match l with
    | .badJson e => (evs, jsonParseMsg n e :: errs)
    | .obj eid tags => ((eid, tags) :: evs, errs)

/-- `extract numeric ID from evt_NNNNNN format`:
`int(event_id.replace('evt_', ''))`, `none` for the ValueError. -/
def extractDbId (s : String) : Option Int :=
  pyIntParse (pyReplace s "evt_")

/-- The UPDATE of import_tags on one routing_events row. -/
def applyTags (source timestamp : String) (tags : Obj) (r : RoutingEvent) : RoutingEvent :=
  { r with
    tag_is_new_request := .int (if (objGetD tags "is_new_request").pyTruthy then 1 else 0)
    tag_is_followup := .int (if (objGetD tags "is_followup").pyTruthy then 1 else 0)
    tag_is_correction := .int (if (objGetD tags "is_correction").pyTruthy then 1 else 0)
    tag_request_type := objGetD tags "request_type"
    tag_expected_outcome := objGetD tags "expected_outcome"
    tag_session_id := objGetD tags "session_id"
    tag_request_sequence := objGetD tags "request_sequence"
    tag_confidence := objGetD tags "confidence"
    tag_notes := objGetD tags "notes"
    tag_source := .str source
    tag_timestamp := .str timestamp }

/-- The commit-mode loop of import_tags; `.error` models the uncaught
AttributeError of `.replace` on a non-string event_id. -/
def importLoop (source timestamp : String) : (IStats × List RoutingEvent) →
    List (Option JVal × Option Obj) → Except String (IStats × List RoutingEvent)
  | st, [] => .ok st
  | (stats, db), ev :: rest =>
    let eid := ev.1.getD (.str "")
    let tags := ev.2.getD []
    match eid with
    | .str s =>
      match extractDbId s with
      | none =>
        importLoop source timestamp
          ({ stats with errors := stats.errors ++ [invalidIdMsg s] }, db) rest
      | some dbId =>
        if db.any (fun r => r.id = dbId) then
          let db' := db.map (fun r => if r.id = dbId then applyTags source timestamp tags r else r)
          importLoop source timestamp ({ stats with matched := stats.matched + 1 }, db') rest
        else
          importLoop source timestamp ({ stats with not_found := stats.not_found + 1 }, db) rest
    | v => .error (attrNoReplace v.pyTypeName)

/-- `import_tags` of import_tagged.py over a decoded batch and the
routing_events rows. -/
def import_tags (lines : List Line) (db : List RoutingEvent) (dryRun : Bool)
    (source timestamp : String) : Except String (IStats × List RoutingEvent) :=
  let (events, perrs) := loadTagged 1 lines
  let stats : IStats := { total := events.length, matched := 0, not_found := 0, errors := perrs }
  if dryRun then
    let fmtErrs := events.foldl (fun acc ev =>
      acc ++ (if ev.1.isNone then ["Missing event_id in " ++ eventRepr ev.1 ev.2] else [])
          ++ (if ev.2.isNone then ["Missing tags in " ++ eventRepr ev.1 ev.2] else [])) []
    .ok ({ stats with errors := stats.errors ++ fmtErrs }, db)
  else
    importLoop source timestamp (stats, db) events

/-! ## Derived notions and concrete scenarios used by the claims -/

/-- Whether a line decoded as JSON (joins `tagged_events` in import_tags). -/
def isDecoded : Line → Bool
  | .badJson _ => false
  | .obj _ _ => true

/-- How many stored rows of the pair `(e, t)` carry version `v`. -/
def occs (rows : List CollabTag) (e : JVal) (t : String) (v : Int) : Nat :=
  (matchingVersions rows e t).count v

/-- `COALESCE(MAX(tag_version), 0)` for the pair: the version ceiling the
writer reads. -/
def maxVersion (rows : List CollabTag) (e : JVal) (t : String) : Int :=
  coalesceMax (matchingVersions rows e t)

/-- The version invariant of the spec: for every `(event_id, tagger_id)`
pair, the stored versions are exactly `{1, ..., k}` for `k` the pair's
maximum, each exactly once — no gaps, no repeats. -/
def VersionsOK (rows : List CollabTag) : Prop :=
  ∀ e t v, occs rows e t v = if 1 ≤ v ∧ v ≤ maxVersion rows e t then 1 else 0

/-- Modelled from the spec's words for the cross-record invariant: walking a
sorted sequence with expectation starting at `prev + 1`, every value that is
not exactly one greater than its predecessor is listed with its expected
value, actual value and event identifier. -/
def specMismatches (prev : Int) : List (Int × JVal) → List (Int × Int × JVal)
  | [] => []
  | (seq, eid) :: rest =>
    (if seq ≠ prev + 1 then [(prev + 1, seq, eid)] else []) ++ specMismatches seq rest

/-- A record passing every per-line check of validate_tags.py. -/
def CleanRecord (tags : Obj) : Bool :=
  REQUIRED_FIELDS.all (objHas tags) &&
  BOOL_FIELDS.all (fun f => (objGetD tags f).isBool) &&
  pyMemStr (objGetD tags "request_type") VALID_REQUEST_TYPES &&
  ((objGetD tags "request_sequence").isInt && 1 ≤ (objGetD tags "request_sequence").toInt) &&
  (match objGetD tags "session_id" with
   | .str sid => pyStartsWith sid "session_"
   | _ => false) &&
  (¬ objHas tags "confidence" || pyMemStr (objGetD tags "confidence") VALID_CONFIDENCE)

/-- A fully valid tags object: the seven required fields, boolean flags,
a valid enum value, a conventional session id and a positive sequence. -/
def cleanTags (sid : String) (seq : Int) : Obj :=
  [("is_new_request", .bool true), ("is_followup", .bool false), ("is_correction", .bool false),
   ("request_type", .str "query"), ("expected_outcome", .str "ok"),
   ("session_id", .str sid), ("request_sequence", .int seq)]

/-- Scenario: one session with request_sequence values 1, 2, 4. -/
def gapBatch : List Line :=
  [.obj (some (.str "evt_1")) (some (cleanTags "session_7" 1)),
   .obj (some (.str "evt_2")) (some (cleanTags "session_7" 2)),
   .obj (some (.str "evt_3")) (some (cleanTags "session_7" 4))]

/-- Scenario: the same fully valid line twice. -/
def dupBatch : List Line :=
  [.obj (some (.str "evt_1")) (some (cleanTags "session_1" 1)),
   .obj (some (.str "evt_1")) (some (cleanTags "session_1" 1))]

/-- Scenario: all required fields present but an invalid request_type, with
request_sequence 2 — a hard validation failure. -/
def badEnumBatch : List Line :=
  [.obj (some (.str "evt_9")) (some
    [("is_new_request", .bool true), ("is_followup", .bool false), ("is_correction", .bool false),
     ("request_type", .str "bogus"), ("expected_outcome", .str "ok"),
     ("session_id", .str "session_1"), ("request_sequence", .int 2)])]

/-- Scenario: a record whose session_id is the integer 7 (all required
fields present and otherwise well-typed). -/
def intSessionBatch : List Line :=
  [.obj (some (.str "evt_1")) (some
    [("is_new_request", .bool true), ("is_followup", .bool false), ("is_correction", .bool false),
     ("request_type", .str "query"), ("expected_outcome", .str "ok"),
     ("session_id", .int 7), ("request_sequence", .int 1)])]

/-- A tags object with every required field except request_sequence. -/
def noSeqTags : Obj :=
  [("is_new_request", .bool true), ("is_followup", .bool false), ("is_correction", .bool false),
   ("request_type", .str "query"), ("expected_outcome", .str "ok"),
   ("session_id", .str "session_1")]

/-- An eval database holding evt_1 and an empty tag store. -/
def noSeqDB : EvalDB := { hasCollabTable := true, dataset := [.str "evt_1"], tags := [] }

/-- A line tagging evt_5 with only a notes field. -/
def notesLine (s : String) : Line :=
  .obj (some (.str "evt_5")) (some [("notes", .str s)])

/-- An eval database holding evt_5 and an empty tag store. -/
def retagDB : EvalDB := { hasCollabTable := true, dataset := [.str "evt_5"], tags := [] }

/-- First add_tags run: tag evt_5 with notes "a". -/
def retagRun1 : AStats × EvalDB := add_tags_from_jsonl [notesLine "a"] retagDB "llm:codex"

/-- Second add_tags run on the first run's store: notes "b". -/
def retagRun2 : AStats × EvalDB := add_tags_from_jsonl [notesLine "b"] retagRun1.2 "llm:codex"

/-- A line for import_tagged.py tagging evt_000001 with only a notes field. -/
def importNotesLine (s : String) : Line :=
  .obj (some (.str "evt_000001")) (some [("notes", .str s)])

/-- First import_tags run over a one-row routing_events table. -/
def importRun1 : Except String (IStats × List RoutingEvent) :=
  import_tags [importNotesLine "a"] [{ id := 1 }] false "codex" "t0"

/-- Second import_tags run, over the store the first run left. -/
def importRun2 : Except String (IStats × List RoutingEvent) :=
  importRun1.bind (fun st => import_tags [importNotesLine "b"] st.2 false "codex" "t1")

/-- Scenario: a decode failure, a line with no event_id, a line with no tags. -/
def parseErrBatch : List Line :=
  [.badJson "e1", .obj none none, .obj (some (.str "evt_1")) none]

/-- The validator's report on `parseErrBatch`. -/
def parseErrReport : VRes :=
  { total := 3, valid := 0,
    errors := ["Line 1: Invalid JSON - e1", "Line 2: Missing 'event_id'",
               "Line 3 (evt_1): Missing 'tags'"],
    warnings := [], sessions := [] }

/-- A batch for the version-writer witness: evt_7 tagged three times. -/
def tripleBatch : List Line :=
  [.obj (some (.str "evt_7")) (some (cleanTags "session_2" 1)),
   .obj (some (.str "evt_7")) (some (cleanTags "session_2" 2)),
   .obj (some (.str "evt_7")) (some (cleanTags "session_2" 3))]

/-- An eval database holding evt_7 and an empty tag store. -/
def tripleDB : EvalDB := { hasCollabTable := true, dataset := [.str "evt_7"], tags := [] }

/-! ## Helper lemmas -/

theorem JVal.pyEq_iff_key (a b : JVal) : JVal.pyEq a b = true ↔ JVal.pyKey a = JVal.pyKey b := by
  cases a <;> cases b <;> simp [JVal.pyEq, JVal.pyKey, JVal.boolToInt]
  case bool.bool x y => cases x <;> cases y <;> simp

theorem JVal.pyEq_refl (v : JVal) : JVal.pyEq v v = true := by
  rw [JVal.pyEq_iff_key]

theorem JVal.pyEq_congr_left {e e' : JVal} (h : JVal.pyEq e e' = true) (a : JVal) :
    JVal.pyEq a e = JVal.pyEq a e' := by
  have hk : JVal.pyKey e = JVal.pyKey e' := (JVal.pyEq_iff_key e e').mp h
  cases hae : JVal.pyEq a e <;> cases hae' : JVal.pyEq a e' <;> try rfl
  · exact absurd ((JVal.pyEq_iff_key a e).mpr (((JVal.pyEq_iff_key a e').mp hae').trans hk.symm))
      (by simp [hae])
  · exact absurd ((JVal.pyEq_iff_key a e').mpr (((JVal.pyEq_iff_key a e).mp hae).trans hk))
      (by simp [hae'])

theorem matchesPair_congr {e e' : JVal} (h : JVal.pyEq e e' = true) (t : String)
    (r : CollabTag) : matchesPair e t r = matchesPair e' t r := by
  simp only [matchesPair, JVal.pyEq_congr_left h]

theorem matchingVersions_congr {e e' : JVal} (h : JVal.pyEq e e' = true)
    (rows : List CollabTag) (t : String) :
    matchingVersions rows e t = matchingVersions rows e' t := by
  unfold matchingVersions
  rw [List.filter_congr (fun r _ => matchesPair_congr h t r)]

theorem matchingVersions_append (rows : List CollabTag) (r : CollabTag) (e : JVal)
    (t : String) :
    matchingVersions (rows ++ [r]) e t =
      matchingVersions rows e t ++ (if matchesPair e t r then [r.tag_version] else []) := by
  unfold matchingVersions
  rw [List.filter_append, List.map_append]
  congr 1
  by_cases h : matchesPair e t r <;> simp [List.filter, h]

theorem listMax?_mem {l : List Int} {m : Int} (h : listMax? l = some m) : m ∈ l := by
  induction l with
  | nil => simp [listMax?] at h
  | cons v rest ih =>
    cases hr : listMax? rest with
    | none =>
      simp only [listMax?, hr] at h
      injection h with h
      simp [← h]
    | some m' =>
      simp only [listMax?, hr] at h
      injection h with h
      rcases max_choice v m' with hm | hm
      · rw [hm] at h; simp [← h]
      · rw [hm] at h; exact List.mem_cons_of_mem _ (ih (h ▸ hr))

theorem listMax?_append_singleton (l : List Int) (x : Int) :
    listMax? (l ++ [x]) = some (match listMax? l with | none => x | some m => max m x) := by
  induction l with
  | nil => simp [listMax?]
  | cons v rest ih =>
    simp only [List.cons_append, listMax?, List.append_eq]
    rw [ih]
    cases hr : listMax? rest with
    | none => simp [hr]
    | some m => simp [hr, max_assoc]

theorem versionsOK_nil : VersionsOK [] := by
  intro e t v
  simp [occs, maxVersion, matchingVersions, coalesceMax, listMax?]
  split <;> omega

/-- Under the version invariant, the pair's ceiling is never negative. -/
theorem maxVersion_nonneg {rows : List CollabTag} (h : VersionsOK rows) (e : JVal)
    (t : String) : 0 ≤ maxVersion rows e t := by
  by_contra hneg
  push_neg at hneg
  unfold maxVersion coalesceMax at hneg
  cases hl : listMax? (matchingVersions rows e t) with
  | none => rw [hl] at hneg; simp at hneg
  | some m =>
    rw [hl] at hneg
    simp at hneg
    have hmem := listMax?_mem hl
    have hcount : 0 < (matchingVersions rows e t).count m := List.count_pos_iff.mpr hmem
    have hh := h e t m
    unfold occs at hh
    rw [hh] at hcount
    split at hcount <;> omega

/-- Appending a row whose version is one past the pair's current ceiling
preserves the version invariant for every pair. -/
theorem versionsOK_insert {rows : List CollabTag} (h : VersionsOK rows) (r : CollabTag)
    (hv : r.tag_version = maxVersion rows r.event_id r.tagger_id + 1) :
    VersionsOK (rows ++ [r]) := by
  intro e t v
  by_cases hm : matchesPair e t r = true
  · have he : JVal.pyEq r.event_id e = true := by
      have := hm
      simp only [matchesPair, Bool.and_eq_true, decide_eq_true_eq] at this
      exact this.1
    have ht : r.tagger_id = t := by
      have := hm
      simp only [matchesPair, Bool.and_eq_true, decide_eq_true_eq] at this
      exact this.2
    subst ht
    have hcongr : matchingVersions rows e r.tagger_id =
        matchingVersions rows r.event_id r.tagger_id := by
      have hsym : JVal.pyEq e r.event_id = true := by
        rw [JVal.pyEq_iff_key] at he ⊢
        exact he.symm
      exact matchingVersions_congr hsym rows r.tagger_id
    have hMr : maxVersion rows r.event_id r.tagger_id = maxVersion rows e r.tagger_id := by
      unfold maxVersion
      rw [hcongr]
    have hrv : r.tag_version = maxVersion rows e r.tagger_id + 1 := by rw [hv, hMr]
    have hM0 : 0 ≤ maxVersion rows e r.tagger_id := maxVersion_nonneg h e r.tagger_id
    have hmv : matchingVersions (rows ++ [r]) e r.tagger_id =
        matchingVersions rows e r.tagger_id ++ [r.tag_version] := by
      simp [matchingVersions_append, hm]
    have hmax : maxVersion (rows ++ [r]) e r.tagger_id = maxVersion rows e r.tagger_id + 1 := by
      unfold maxVersion coalesceMax
      rw [hmv, listMax?_append_singleton]
      cases hl : listMax? (matchingVersions rows e r.tagger_id) with
      | none =>
        have h0 : maxVersion rows e r.tagger_id = 0 := by
          unfold maxVersion coalesceMax
          rw [hl]
          rfl
        simp [hrv, h0]
      | some m =>
        have hmM : m = maxVersion rows e r.tagger_id := by
          unfold maxVersion coalesceMax
          rw [hl]
          rfl
        simp only [Option.getD_some]
        rw [hrv, hmM, max_eq_right (by omega)]
    have hocc : occs (rows ++ [r]) e r.tagger_id v =
        occs rows e r.tagger_id v + (if v = maxVersion rows e r.tagger_id + 1 then 1 else 0) := by
      unfold occs
      rw [hmv, List.count_append]
      congr 1
      by_cases hveq : v = maxVersion rows e r.tagger_id + 1 <;>
        simp [List.count_singleton, hveq, hrv]
    rw [hocc, hmax, h e r.tagger_id v]
    split_ifs <;> omega
  · have hm' : matchesPair e t r = false := by
      cases hfb : matchesPair e t r
      · rfl
      · exact absurd hfb hm
    unfold occs maxVersion
    rw [matchingVersions_append, hm']
    simp only [Bool.false_eq_true, if_false, List.append_nil]
    exact h e t v

/-- One step of the add_tags loop preserves the version invariant. -/
theorem addStep_preserves (tagger : String) (dataset : List JVal) (n : Nat)
    (st : AStats × List CollabTag) (l : Line) (h : VersionsOK st.2) :
    VersionsOK (addStep tagger dataset n st l).2 := by
  unfold addStep
  cases l with
  | badJson e => exact h
  | obj eid? tags? =>
    dsimp only
    split
    · exact h
    · split
      · exact h
      · exact versionsOK_insert h _ (by simp [mkTag, nextVersion, maxVersion])

/-- The whole add_tags loop preserves the version invariant. -/
theorem addLoop_preserves (tagger : String) (dataset : List JVal) :
    ∀ (lines : List Line) (n : Nat) (st : AStats × List CollabTag),
      VersionsOK st.2 → VersionsOK (addLoop tagger dataset n st lines).2 := by
  intro lines
  induction lines with
  | nil => intro n st h; exact h
  | cons l rest ih =>
    intro n st h
    exact ih (n + 1) _ (addStep_preserves tagger dataset n st l h)

/-- One add_tags step only ever appends rows to the store. -/
theorem addStep_extends (tagger : String) (dataset : List JVal) (n : Nat)
    (st : AStats × List CollabTag) (l : Line) :
    ∃ new, (addStep tagger dataset n st l).2 = st.2 ++ new := by
  unfold addStep
  cases l with
  | badJson e => exact ⟨[], by simp⟩
  | obj eid? tags? =>
    dsimp only
    split
    · exact ⟨[], by simp⟩
    · split
      · exact ⟨[], by simp⟩
      · exact ⟨_, rfl⟩

/-- The add_tags loop only ever appends rows to the store. -/
theorem addLoop_extends (tagger : String) (dataset : List JVal) :
    ∀ (lines : List Line) (n : Nat) (st : AStats × List CollabTag),
      ∃ new, (addLoop tagger dataset n st lines).2 = st.2 ++ new := by
  intro lines
  induction lines with
  | nil => exact fun n st => ⟨[], by simp [addLoop]⟩
  | cons l rest ih =>
    intro n st
    obtain ⟨n1, h1⟩ := addStep_extends tagger dataset n st l
    obtain ⟨n2, h2⟩ := ih (n + 1) (addStep tagger dataset n st l)
    exact ⟨n1 ++ n2, by rw [addLoop, h2, h1, List.append_assoc]⟩

/-- Under the version invariant, inserting at the freshly computed next
version never collides with an existing composite key. -/
theorem insertConflict_next {rows : List CollabTag} (h : VersionsOK rows)
    (eid : JVal) (tags : Obj) (tagger : String) :
    insertConflict rows (mkTag eid tags tagger (nextVersion rows eid tagger)) = false := by
  cases hc : insertConflict rows (mkTag eid tags tagger (nextVersion rows eid tagger))
  · rfl
  · exfalso
    unfold insertConflict at hc
    rw [List.any_eq_true] at hc
    obtain ⟨q, hq, hpred⟩ := hc
    simp only [mkTag, Bool.and_eq_true, decide_eq_true_eq] at hpred
    obtain ⟨hqe, hqt, hqv⟩ := hpred
    have hmem : nextVersion rows eid tagger ∈ matchingVersions rows eid tagger := by
      have hq' : q ∈ rows.filter (matchesPair eid tagger) := by
        rw [List.mem_filter]
        refine ⟨hq, ?_⟩
        unfold matchesPair
        simp [hqe, hqt]
      have hv' := List.mem_map_of_mem (fun r : CollabTag => r.tag_version) hq'
      dsimp only at hv'
      rw [hqv] at hv'
      unfold matchingVersions
      exact hv'
    have hcount : 0 < occs rows eid tagger (nextVersion rows eid tagger) := by
      unfold occs
      exact List.count_pos_iff.mpr hmem
    rw [h eid tagger (nextVersion rows eid tagger)] at hcount
    unfold nextVersion maxVersion at hcount
    split at hcount <;> omega

/-- import_tags collects exactly the decoded lines as events. -/
theorem loadTagged_length : ∀ (lines : List Line) (n : Nat),
    (loadTagged n lines).1.length = (lines.filter isDecoded).length := by
  intro lines
  induction lines with
  | nil => intro n; rfl
  | cons l rest ih =>
    intro n
    cases l with
    | badJson e => simp [loadTagged, isDecoded, ih (n + 1)]
    | obj eid tags => simp [loadTagged, isDecoded, ih (n + 1)]

/-- The commit loop of import_tags never changes the total count. -/
theorem importLoop_total : ∀ (evs : List (Option JVal × Option Obj)) (src ts : String)
    (stats : IStats) (db : List RoutingEvent) (st : IStats × List RoutingEvent),
    importLoop src ts (stats, db) evs = .ok st → st.1.total = stats.total := by
  intro evs
  induction evs with
  | nil =>
    intro src ts stats db st h
    unfold importLoop at h
    cases h
    rfl
  | cons ev rest ih =>
    intro src ts stats db st h
    unfold importLoop at h
    dsimp only at h
    split at h
    · split at h
      · have hh := ih _ _ _ _ _ h
        exact hh
      · split at h
        · have hh := ih _ _ _ _ _ h
          exact hh
        · have hh := ih _ _ _ _ _ h
          exact hh
    · cases h

/-- Every line the validator processes without crashing raises the total by
exactly one. -/
theorem processLine_total {n : Nat} {st : VRes × List JVal} {l : Line}
    {st' : VRes × List JVal} (h : processLine n st l = .ok st') :
    st'.1.total = st.1.total + 1 := by
  unfold processLine at h
  cases l with
  | badJson e => cases h; rfl
  | obj eid? tags? =>
    cases eid? with
    | none => cases h; rfl
    | some eid =>
      cases tags? with
      | none =>
        dsimp only at h
        cases h
        dsimp only
        split <;> rfl
      | some tags =>
        dsimp only at h
        split at h
        · split at h
          · cases h
            dsimp only
            repeat' split
            all_goals rfl
          · cases h
        · cases h
          dsimp only
          split <;> rfl

/-- The validator's loop counts every processed line in the total. -/
theorem runLines_total : ∀ (lines : List Line) (n : Nat) (r0 : VRes) (s0 : List JVal)
    (res : VRes) (seen : List JVal),
    runLines n (r0, s0) lines = .ok (res, seen) → res.total = r0.total + lines.length := by
  intro lines
  induction lines with
  | nil =>
    intro n r0 s0 res seen h
    unfold runLines at h
    cases h
    simp
  | cons l rest ih =>
    intro n r0 s0 res seen h
    unfold runLines at h
    cases hp : processLine n (r0, s0) l with
    | error e => rw [hp] at h; cases h
    | ok st' =>
      rw [hp] at h
      obtain ⟨r1, s1⟩ := st'
      have ht := processLine_total hp
      have hr := ih (n + 1) r1 s1 res seen h
      simp only at ht
      simp [hr, ht, Nat.add_assoc, Nat.add_comm]
      omega

/-! ## Claims -/

/-- C1: the version writer computes each accepted record's tag_version as
the pair's maximum existing version plus 1 (COALESCE defaulting to 1 when
no version exists), so any sequence of sequential imports leaves the stored
versions of every (event_id, tagger_id) pair exactly the set {1, ..., k}
with no gaps and no repeats. -/
theorem addTags_versions_contiguous :
    (∀ (lines : List Line) (db : EvalDB) (tagger : String), VersionsOK db.tags →
        VersionsOK (add_tags_from_jsonl lines db tagger).2.tags) ∧
    (∀ (rows : List CollabTag) (e : JVal) (t : String),
        nextVersion rows e t = maxVersion rows e t + 1 ∧
        (matchingVersions rows e t = [] → nextVersion rows e t = 1)) := by
  constructor
  · intro lines db tagger h
    unfold add_tags_from_jsonl
    split
    · exact h
    · rcases hEq : addLoop tagger db.dataset 1
        ({ total := 0, imported := 0, event_not_found := 0, errors := [] }, db.tags) lines
        with ⟨stats, rows⟩
      have hpres := addLoop_preserves tagger db.dataset lines 1
        ({ total := 0, imported := 0, event_not_found := 0, errors := [] }, db.tags) h
      rw [hEq] at hpres
      dsimp only at hpres ⊢
      exact hpres
  · intro rows e t
    refine ⟨rfl, fun hmv => ?_⟩
    unfold nextVersion coalesceMax
    rw [hmv]
    rfl

/-- Witness for C1: three sequential tags of evt_7 from an empty store
satisfy the contiguous-versions invariant. -/
theorem addTags_versions_contiguous_witness :
    VersionsOK (add_tags_from_jsonl tripleBatch tripleDB "llm:codex").2.tags :=
  addTags_versions_contiguous.1 tripleBatch tripleDB "llm:codex" versionsOK_nil

/-- C2 counterexample: importing the same event twice through import_tags
overwrites the stored notes value in place — after the second import the
first import's value "a" is gone, so prior stored values are not retained. -/
theorem importTags_overwrite_cx :
    importRun1.map (fun st => st.2.map (fun r => r.tag_notes)) = .ok [.str "a"] ∧
    importRun2.map (fun st => st.2.map (fun r => r.tag_notes)) = .ok [.str "b"] :=
  ⟨rfl, rfl⟩

/-- C2 (amended): the collaboration-tags importer add_tags_from_jsonl never
updates or deletes previously stored rows (the prior store is an unchanged
prefix of the new store) and re-tagging creates a version-2 row while the
version-1 row keeps its field values; import_tags, by contrast, updates the
event row's tag columns in place. -/
theorem addTags_immutable_history :
    (∀ (lines : List Line) (db : EvalDB) (tagger : String),
        ((add_tags_from_jsonl lines db tagger).2.tags).take db.tags.length = db.tags) ∧
    (retagRun2.2.tags.map (fun r => (r.notes, r.tag_version)) =
      [(.str "a", 1), (.str "b", 2)]) := by
  constructor
  · intro lines db tagger
    unfold add_tags_from_jsonl
    split
    · exact List.take_length db.tags
    · rcases hEq : addLoop tagger db.dataset 1
        ({ total := 0, imported := 0, event_not_found := 0, errors := [] }, db.tags) lines
        with ⟨stats, rows⟩
      obtain ⟨new, hnew⟩ := addLoop_extends tagger db.dataset lines 1
        ({ total := 0, imported := 0, event_not_found := 0, errors := [] }, db.tags)
      rw [hEq] at hnew
      dsimp only at hnew ⊢
      rw [hnew]
      exact List.take_left db.tags new
  · rfl

/-- C3 counterexample: a record whose tags omit request_sequence is still
counted in add_tags_from_jsonl's imported statistic (the importer performs
no field validation), against the claim that it is excluded from it. -/
theorem missingSeq_imported_cx :
    (add_tags_from_jsonl [.obj (some (.str "evt_1")) (some noSeqTags)] noSeqDB
      "llm:codex").1.imported = 1 := rfl

/-- C4 counterexample: the same fully valid line twice — the second
occurrence is flagged as a duplicate, but it is still counted valid
(valid = 2), so the duplicated record is not excluded from the valid count. -/
theorem duplicate_valid_cx :
    (validate_tags dupBatch).map (fun r => (r.valid, r.errors)) =
      .ok (2, ["Line 2: Duplicate event_id 'evt_1'"]) := rfl

/-- C5: a session with request_sequence values 1, 2, 4 yields exactly one
non-sequential warning, citing expected 3 and actual 4 and the offending
event; in general, walking a session's sorted entries flags exactly the
values that are not one greater than their predecessor, with the expected
value, the actual value and the event identifier. -/
theorem sequence_gap_detection :
    ((validate_tags gapBatch).map (fun r => (r.errors, r.warnings)) =
      .ok ([],
        ["Session 'session_7': Non-sequential request_sequence. Expected 3, got 4 for evt_3"])) ∧
    (∀ (sid : JVal) (prev : Int) (l : List (Int × JVal)),
      walkSession sid (.int prev) (l.map (fun p => (JVal.int p.1, p.2))) =
        .ok ((specMismatches prev l).map
          (fun m => nonSeqMsg sid (.int m.1) (.int m.2.1) m.2.2))) := by
  refine ⟨rfl, ?_⟩
  intro sid prev l
  induction l generalizing prev with
  | nil => rfl
  | cons p rest ih =>
    obtain ⟨seq, eid⟩ := p
    simp only [List.map_cons, walkSession, specMismatches, pyAdd1, ih]
    by_cases h : seq = prev + 1 <;> simp [JVal.pyEq, h]

/-- C6 counterexample: a record failing the request_type enumeration check
(hard failure, valid = 0) still contributes its (session_id,
request_sequence) entry to the grouping — the non-sequential warning
"Expected 1, got 2" is emitted from the invalid record's entry. -/
theorem invalid_enum_groups_cx :
    (validate_tags badEnumBatch).map (fun r => (r.valid, r.warnings)) =
      .ok (0,
        ["Session 'session_1': Non-sequential request_sequence. Expected 1, got 2 for evt_9"]) :=
  rfl

/-- C7: evt_000042 resolves to numeric source key 42 and matches the row
with id 42; evt_00004X yields a recorded invalid-identifier-format error for
that line, the line is skipped and the batch continues (the following line
still imports), with no exception raised. -/
theorem identifier_matching :
    extractDbId "evt_000042" = some 42 ∧
    (import_tags [.obj (some (.str "evt_000042")) (some [])] [{ id := 42 }] false
        "codex" "t0").map
      (fun st => (st.1.matched, st.1.errors, st.2.map (fun r => (r.id, r.tag_source)))) =
      .ok (1, [], [(42, .str "codex")]) ∧
    (import_tags [.obj (some (.str "evt_00004X")) (some []),
                  .obj (some (.str "evt_000042")) (some [])] [{ id := 42 }] false
        "codex" "t0").map (fun st => (st.1.matched, st.1.errors)) =
      .ok (1, ["Invalid event_id format: evt_00004X"]) :=
  ⟨rfl, rfl, rfl⟩

/-- C8 counterexample: a batch whose single line fails JSON parsing — the
error is recorded with its line number, but import_tags reports total = 0,
not 1: parse-failed lines are not counted toward the importer's total. -/
theorem importer_total_cx :
    (import_tags [.badJson "Expecting value"] [] false "codex" "t0").map
      (fun st => (st.1.total, st.1.errors)) =
      .ok (0, ["Line 1: JSON parse error - Expecting value"]) := rfl

/-- C9: the validator raises an uncaught AttributeError on a record whose
session_id is the integer 7 (at tags['session_id'].startswith), and the
importer raises an uncaught AttributeError on a non-string event_id (at
event_id.replace), aborting the batch instead of recording a per-line
error. -/
theorem nonstring_crash_bug :
    validate_tags intSessionBatch =
      .error "AttributeError: 'int' object has no attribute 'startswith'" ∧
    import_tags [.obj (some (.int 3)) (some [])] [] false "codex" "t0" =
      .error "AttributeError: 'int' object has no attribute 'replace'" :=
  ⟨rfl, rfl⟩

/-- C10: the identifier parser deletes every occurrence of "evt_" and feeds
the residue to int(): the bare token "42", the doubly prefixed
"evt_evt_000042" and the signed "+42" all resolve to the same source key 42
as the canonical "evt_000042". -/
theorem identifier_parser_lenient :
    pyReplace "evt_evt_000042" "evt_" = "000042" ∧
    extractDbId "42" = some 42 ∧
    extractDbId "evt_evt_000042" = some 42 ∧
    extractDbId "+42" = some 42 ∧
    extractDbId "evt_000042" = some 42 :=
  ⟨rfl, rfl, rfl, rfl, rfl⟩

/-- C3 (amended): a record whose tags omit request_sequence (all other
required fields present) is excluded from the validator's valid count and
produces exactly one error naming that field; the importer
add_tags_from_jsonl, which performs no field validation, nevertheless
imports the record — at the next version, with the missing field stored as
NULL — whenever its event is in the dataset. -/
theorem missingSeq_validator_excludes_importer_imports :
    (∀ (n : Nat) (res : VRes) (seen : List JVal) (eid : JVal) (tags : Obj),
        pyMem eid seen = false →
        (∀ f ∈ REQUIRED_FIELDS, f ≠ "request_sequence" → objHas tags f = true) →
        objHas tags "request_sequence" = false →
        processLine n (res, seen) (.obj (some eid) (some tags)) =
          .ok ({ res with total := res.total + 1, errors := res.errors ++ [missingFieldMsg n eid "request_sequence"] }, eid :: seen)) ∧
    (∀ (tagger : String) (dataset : List JVal) (n : Nat) (st : AStats × List CollabTag)
        (eid : JVal) (tags : Obj),
        VersionsOK st.2 → dataset.any (fun d => JVal.pyEq d eid) = true →
        (addStep tagger dataset n st (.obj (some eid) (some tags))).1.imported =
            st.1.imported + 1 ∧
        (addStep tagger dataset n st (.obj (some eid) (some tags))).2 =
            st.2 ++ [mkTag eid tags tagger (nextVersion st.2 eid tagger)]) := by
  constructor
  · intro n res seen eid tags hmem hreq hseq
    have h1 : objHas tags "is_new_request" = true :=
      hreq _ (by simp [REQUIRED_FIELDS]) (by decide)
    have h2 : objHas tags "is_followup" = true :=
      hreq _ (by simp [REQUIRED_FIELDS]) (by decide)
    have h3 : objHas tags "is_correction" = true :=
      hreq _ (by simp [REQUIRED_FIELDS]) (by decide)
    have h4 : objHas tags "request_type" = true :=
      hreq _ (by simp [REQUIRED_FIELDS]) (by decide)
    have h5 : objHas tags "expected_outcome" = true :=
      hreq _ (by simp [REQUIRED_FIELDS]) (by decide)
    have h6 : objHas tags "session_id" = true :=
      hreq _ (by simp [REQUIRED_FIELDS]) (by decide)
    unfold processLine
    dsimp only
    rw [hmem]
    simp [REQUIRED_FIELDS, List.filter, h1, h2, h3, h4, h5, h6, hseq]
  · intro tagger dataset n st eid tags hok hfound
    unfold addStep
    simp only [Option.getD_some, hfound]
    rw [insertConflict_next hok eid tags tagger]
    simp

/-- Witness for C3 at a concrete record missing request_sequence. -/
theorem missingSeq_witness :
    processLine 1 (initRes, []) (.obj (some (.str "evt_1")) (some noSeqTags)) =
      .ok ({ initRes with total := 1, errors := [missingFieldMsg 1 (.str "evt_1") "request_sequence"] }, [.str "evt_1"]) ∧
    (addStep "llm:codex" [.str "evt_1"] 1
        ({ total := 0, imported := 0, event_not_found := 0, errors := [] }, [])
        (.obj (some (.str "evt_1")) (some noSeqTags))).1.imported = 1 :=
  ⟨missingSeq_validator_excludes_importer_imports.1 1 initRes [] (.str "evt_1") noSeqTags
      (by decide) (by decide) (by decide),
   (missingSeq_validator_excludes_importer_imports.2 "llm:codex" [.str "evt_1"] 1
      ({ total := 0, imported := 0, event_not_found := 0, errors := [] }, [])
      (.str "evt_1") noSeqTags versionsOK_nil (by decide)).1⟩

/-- C4 (amended): a duplicated event_id is flagged as a duplicate error at
the point of second occurrence and the first occurrence processes normally,
but the duplicated record is NOT excluded from the valid count: if otherwise
valid it is still counted valid. -/
theorem duplicate_flagged_still_valid :
    ∀ (n : Nat) (res : VRes) (seen : List JVal) (eid : JVal) (tags : Obj),
      pyMem eid seen = true → CleanRecord tags = true →
      (processLine n (res, seen) (.obj (some eid) (some tags))).map
          (fun st => (st.1.valid, st.1.errors, st.2)) =
        .ok (res.valid + 1, res.errors ++ [duplicateMsg n eid], eid :: seen) := by
  intro n res seen eid tags hdup hclean
  unfold CleanRecord at hclean
  simp only [REQUIRED_FIELDS, BOOL_FIELDS, List.all_cons, List.all_nil, Bool.and_eq_true,
    Bool.or_eq_true, Bool.and_true, Bool.not_eq_true', decide_eq_true_eq] at hclean
  obtain ⟨⟨⟨⟨⟨hreq, hbools⟩, hrt⟩, hrs⟩, hsid⟩, hconf⟩ := hclean
  cases hs : objGetD tags "session_id" with
  | str sid =>
    rw [hs] at hsid
    simp only [] at hsid
    unfold processLine
    dsimp only
    rw [hdup]
    simp only [REQUIRED_FIELDS, BOOL_FIELDS, List.filter, hreq.1, hreq.2.1, hreq.2.2.1,
      hreq.2.2.2.1, hreq.2.2.2.2.1, hreq.2.2.2.2.2.1, hreq.2.2.2.2.2.2,
      hbools.1, hbools.2.1, hbools.2.2, hrt, hrs.1, hs]
    have hdec : decide ((objGetD tags "request_sequence").toInt < 1) = false :=
      decide_eq_false (by omega)
    simp [hdec, hsid, List.filter]
    rcases hconf with hc | hc <;> (simp [hc]; rfl)
  | null => rw [hs] at hsid; simp at hsid
  | bool b => rw [hs] at hsid; simp at hsid
  | int m => rw [hs] at hsid; simp at hsid

/-- Witness for C4 at a concrete duplicate of a clean record. -/
theorem duplicate_flagged_witness :
    (processLine 2 (initRes, [.str "evt_1"]) (.obj (some (.str "evt_1"))
        (some (cleanTags "session_1" 1)))).map (fun st => (st.1.valid, st.1.errors, st.2)) =
      .ok (1, ["Line 2: Duplicate event_id 'evt_1'"], [.str "evt_1", .str "evt_1"]) :=
  duplicate_flagged_still_valid 2 initRes [.str "evt_1"] (.str "evt_1")
    (cleanTags "session_1" 1) (by decide) (by decide)

set_option maxHeartbeats 1000000 in
/-- C6 (amended): the session grouping that feeds the non-sequential
warnings ranges over every record with all required fields present — also
records that failed a hard type, enumeration or positivity check — while
records rejected earlier (parse failure, missing event_id or tags, missing
required field) contribute nothing. -/
theorem session_grouping_membership :
    (∀ (n : Nat) (res : VRes) (seen : List JVal) (eid : JVal) (tags : Obj) (sid : String),
        (∀ f ∈ REQUIRED_FIELDS, objHas tags f = true) →
        objGetD tags "session_id" = .str sid →
        (processLine n (res, seen) (.obj (some eid) (some tags))).map
            (fun st => st.1.sessions) =
          .ok (sessAppend res.sessions (.str sid) (objGetD tags "request_sequence", eid))) ∧
    (∀ (n : Nat) (res : VRes) (seen : List JVal) (eid : JVal) (tags : Obj),
        (∃ f ∈ REQUIRED_FIELDS, objHas tags f = false) →
        (processLine n (res, seen) (.obj (some eid) (some tags))).map
            (fun st => st.1.sessions) = .ok res.sessions) ∧
    (∀ (n : Nat) (res : VRes) (seen : List JVal) (e : String) (eid : JVal),
        (processLine n (res, seen) (.badJson e)).map (fun st => st.1.sessions) =
            .ok res.sessions ∧
        (processLine n (res, seen) (.obj none none)).map (fun st => st.1.sessions) =
            .ok res.sessions ∧
        (processLine n (res, seen) (.obj (some eid) none)).map (fun st => st.1.sessions) =
            .ok res.sessions) := by
  refine ⟨?_, ?_, ?_⟩
  · intro n res seen eid tags sid hreq hsid
    have h1 : objHas tags "is_new_request" = true := hreq _ (by simp [REQUIRED_FIELDS])
    have h2 : objHas tags "is_followup" = true := hreq _ (by simp [REQUIRED_FIELDS])
    have h3 : objHas tags "is_correction" = true := hreq _ (by simp [REQUIRED_FIELDS])
    have h4 : objHas tags "request_type" = true := hreq _ (by simp [REQUIRED_FIELDS])
    have h5 : objHas tags "expected_outcome" = true := hreq _ (by simp [REQUIRED_FIELDS])
    have h6 : objHas tags "session_id" = true := hreq _ (by simp [REQUIRED_FIELDS])
    have h7 : objHas tags "request_sequence" = true := hreq _ (by simp [REQUIRED_FIELDS])
    unfold processLine
    dsimp only
    simp only [REQUIRED_FIELDS, List.filter, h1, h2, h3, h4, h5, h6, h7, hsid,
      Bool.not_true, List.isEmpty_nil, if_true]
    repeat' split
    all_goals rfl
  · intro n res seen eid tags hmiss
    obtain ⟨f, hfmem, hfabs⟩ := hmiss
    have hfin : f ∈ REQUIRED_FIELDS.filter (fun g => ! objHas tags g) :=
      List.mem_filter.mpr ⟨hfmem, by simp [hfabs]⟩
    have hne : (REQUIRED_FIELDS.filter (fun g => ! objHas tags g)).isEmpty = false := by
      cases hl : (REQUIRED_FIELDS.filter (fun g => ! objHas tags g)).isEmpty
      · rfl
      · rw [List.isEmpty_iff] at hl
        rw [hl] at hfin
        cases hfin
    unfold processLine
    dsimp only
    rw [hne]
    simp only [Bool.false_eq_true, if_false]
    split <;> rfl
  · intro n res seen e eid
    refine ⟨rfl, rfl, ?_⟩
    unfold processLine
    dsimp only
    split <;> rfl

/-- Witness for C6 at the invalid-enumeration record of badEnumBatch. -/
theorem session_grouping_witness :
    (processLine 1 (initRes, []) (.obj (some (.str "evt_9")) (some
        [("is_new_request", .bool true), ("is_followup", .bool false),
         ("is_correction", .bool false), ("request_type", .str "bogus"),
         ("expected_outcome", .str "ok"), ("session_id", .str "session_1"),
         ("request_sequence", .int 2)]))).map (fun st => st.1.sessions) =
      .ok [(.str "session_1", [(.int 2, .str "evt_9")])] :=
  session_grouping_membership.1 1 initRes [] (.str "evt_9")
    [("is_new_request", .bool true), ("is_followup", .bool false),
     ("is_correction", .bool false), ("request_type", .str "bogus"),
     ("expected_outcome", .str "ok"), ("session_id", .str "session_1"),
     ("request_sequence", .int 2)] "session_1" (by decide) (by decide)

/-- C8 (amended): the validator counts every input line toward its total —
JSON failures and lines missing event_id or tags are reported with their
1-based line numbers and excluded from valid — but the importer's total
counts only the lines that decoded as JSON: parse-failed lines are
reported with line numbers yet excluded from import_tags' total. -/
theorem batch_total_accounting :
    (∀ (lines : List Line) (res : VRes),
        validate_tags lines = .ok res → res.total = lines.length) ∧
    (∀ (lines : List Line) (db : List RoutingEvent) (src ts : String)
        (st : IStats × List RoutingEvent),
        import_tags lines db false src ts = .ok st →
        st.1.total = (lines.filter isDecoded).length) ∧
    ((validate_tags parseErrBatch).map (fun r => (r.total, r.valid, r.errors)) =
      .ok (3, 0, ["Line 1: Invalid JSON - e1", "Line 2: Missing 'event_id'",
                  "Line 3 (evt_1): Missing 'tags'"])) := by
  refine ⟨?_, ?_, rfl⟩
  · intro lines res hval
    unfold validate_tags at hval
    cases hrl : runLines 1 (initRes, []) lines with
    | error e => rw [hrl] at hval; cases hval
    | ok p =>
      obtain ⟨r, s⟩ := p
      rw [hrl] at hval
      dsimp only at hval
      cases hsp : sessionPass r.sessions with
      | error e => rw [hsp] at hval; cases hval
      | ok ws =>
        rw [hsp] at hval
        cases hval
        have hr := runLines_total lines 1 initRes [] r s hrl
        simpa [initRes] using hr
  · intro lines db src ts st h
    unfold import_tags at h
    rcases hlt : loadTagged 1 lines with ⟨events, perrs⟩
    rw [hlt] at h
    dsimp only at h
    rw [if_neg Bool.false_ne_true] at h
    have ht := importLoop_total events src ts _ db st h
    have hlen : events.length = (lines.filter isDecoded).length := by
      have hl := loadTagged_length lines 1
      rw [hlt] at hl
      exact hl
    simpa [hlen] using ht

/-- Witness for C8 at the three-line parse-error batch. -/
theorem batch_total_witness :
    parseErrReport.total = parseErrBatch.length :=
  batch_total_accounting.1 parseErrBatch parseErrReport rfl

end Tagging
